import Mathlib

/-!
# Verification of the flask-camera watchdog service (`main.py`)

Shallow embedding of the `CameraService` watchdog in Lean 4.

The source is a single Python file.  Each definition below embeds the control
flow of one piece of that file:

* the missing-time counter update of `start_service_loop` (lines 119-126);
* the grace-limit exit of the same loop (lines 128-133);
* the cleanup code of `release_resources` / `delete_lock_file`;
* the lock-file protocol (`is_service_already_running`, `create_lock_file`);
* the frame resize-and-copy of `capture_camera_frames`;
* the constructor loop of `CameraService.__init__`;
* the Flask `/lock` endpoint and the `__main__` command dispatch.

External effects (the OS process table, the file system, camera devices,
shared-memory allocation) are passed in as explicit oracle values, so every
definition is a total, executable function of its inputs.
-/

namespace FlaskCamera

/-! ## Watchdog missing-time counter (`start_service_loop`, lines 119-126)

`elapsed_missing_time` is a Python int; `check_interval_seconds` is an int as
well, so both are embedded as `Int`.  Each loop iteration observes whether the
target process is running (`present`) and updates the counter:
`if present: m = 0 else m = m + check_interval`. -/

/-- One counter update of the watchdog loop: reset to `0` when the target
process is observed, otherwise add `check_interval` (lines 120-124). -/
def wdTick (checkInterval : Int) (m : Int) (present : Bool) : Int :=
  if present then 0 else m + checkInterval

/-- The successive values of `elapsed_missing_time` produced by a sequence of
observations, starting from counter value `m`. -/
def wdTrace (checkInterval : Int) (m : Int) : List Bool → List Int
  | [] => []
  | p :: rest =>
    wdTick checkInterval m p :: wdTrace checkInterval (wdTick checkInterval m p) rest

/-! ## Watchdog loop with grace-limit exit (`start_service_loop`, lines 119-133)

The loop body: on a present tick the counter resets and the tick continues to
frame capture and sleep.  On an absent tick the counter is incremented and the
grace condition `elapsed_missing_time >= max_missing_time` is evaluated; when
it holds the loop `break`s before `capture_camera_frames()` and
`time.sleep(...)` run.  The condition is *not* evaluated on present ticks. -/

/-- Outcome of one loop iteration: the counter value after the update, whether
the loop stopped (`break`) at this tick, and whether the frame capture and
sleep of this tick were reached. -/
structure TickResult where
  missing : Int
  stopped : Bool
  captureRan : Bool
deriving DecidableEq, Repr

/-- One iteration of the code's loop body (lines 120-133).  The grace check
happens only in the absent branch, after the increment; a `break` skips the
capture and sleep of that tick. -/
def loopTick (checkInterval graceLimit : Int) (m : Int) (present : Bool) : TickResult :=
  if present then
    ⟨0, false, true⟩
  else
    ⟨m + checkInterval, decide (graceLimit ≤ m + checkInterval),
      ! decide (graceLimit ≤ m + checkInterval)⟩

/-- The code's loop run over an observation sequence: the list of per-tick
results, truncated at the first tick whose `break` fires. -/
def loopRun (checkInterval graceLimit : Int) (m : Int) : List Bool → List TickResult
  | [] => []
  | p :: rest =>
    if (loopTick checkInterval graceLimit m p).stopped then
      [loopTick checkInterval graceLimit m p]
    else
      loopTick checkInterval graceLimit m p ::
        loopRun checkInterval graceLimit (loopTick checkInterval graceLimit m p).missing rest

/-- Modelled from the spec's words, for comparison with `loopTick`: the grace
condition is "checked once on every tick", present or absent, right after the
counter update, and a tick that stops skips its remaining steps. -/
def specLoopTick (checkInterval graceLimit : Int) (m : Int) (present : Bool) : TickResult :=
  let m2 := wdTick checkInterval m present
  ⟨m2, decide (graceLimit ≤ m2), ! decide (graceLimit ≤ m2)⟩

/-- Modelled from the spec's words: the loop run in which the grace condition
is evaluated on every tick. -/
def specLoopRun (checkInterval graceLimit : Int) (m : Int) : List Bool → List TickResult
  | [] => []
  | p :: rest =>
    if (specLoopTick checkInterval graceLimit m p).stopped then
      [specLoopTick checkInterval graceLimit m p]
    else
      specLoopTick checkInterval graceLimit m p ::
        specLoopRun checkInterval graceLimit (specLoopTick checkInterval graceLimit m p).missing rest

/-! ## Cleanup (`release_resources`, lines 141-155, and `delete_lock_file`,
lines 82-88)

`release_resources` loops over the captures, calling `release()` inside a
per-capture `try`, then over the shared-memory blocks, calling `close()` and
`unlink()` inside one per-block `try` (so a failing `close()` skips that
block's `unlink()`, but not the next block), then calls `delete_lock_file`.
`start_service_loop` reaches it through a `finally`, on all three termination
paths.  Failures of individual operations are absorbed by the `except`
clauses; they are modelled by an oracle saying which operations would fail. -/

/-- The three termination paths of `start_service_loop`: the grace-limit
`break`, `KeyboardInterrupt`, and any other exception. -/
inductive ExitCause where
  | graceExceeded
  | interrupted
  | faulted
deriving DecidableEq, Repr

/-- Outcome of the `os.remove` call in `delete_lock_file`. -/
inductive RemoveOutcome where
  | ok
  | fileNotFound
  | otherError
deriving DecidableEq, Repr

/-- What `delete_lock_file` does for each `os.remove` outcome: it never lets
an exception escape, and it logs a warning exactly on a failure other than a
missing file (lines 82-88). -/
structure DeleteLockResult where
  raised : Bool
  warnedLog : Bool
deriving DecidableEq, Repr

/-- `delete_lock_file` (lines 82-88): `FileNotFoundError` is passed over
silently; any other failure is logged at warning level; nothing propagates. -/
def delete_lock_file (r : RemoveOutcome) : DeleteLockResult :=
  match r with
  | RemoveOutcome.ok => ⟨false, false⟩
  | RemoveOutcome.fileNotFound => ⟨false, false⟩
  | RemoveOutcome.otherError => ⟨false, true⟩

/-- Which cleanup operations would fail, were they attempted.  `release`,
`unlink` and the lock removal failing never changes control flow (each is
absorbed where it is raised); a failing `close` aborts only that block's
`try` body, i.e. skips that block's `unlink`. -/
structure CleanupOracle where
  releaseOk : Nat → Bool
  closeOk : Nat → Bool
  unlinkOk : Nat → Bool
  removeOutcome : RemoveOutcome

/-- One attempted cleanup operation, indexed by camera position. -/
inductive CleanupOp where
  | releaseCapture (i : Nat)
  | closeShm (i : Nat)
  | unlinkShm (i : Nat)
  | removeLockFile
deriving DecidableEq, Repr

/-- The sequence of cleanup operations `release_resources` attempts when the
service holds `n` captures and `n` shared-memory blocks (lines 141-155):
every capture's `release`, then for every block its `close` followed — only
when the `close` did not raise — by its `unlink`, then the lock removal. -/
def release_resources (n : Nat) (o : CleanupOracle) : List CleanupOp :=
  ((List.range n).map CleanupOp.releaseCapture) ++
    ((List.range n).flatMap fun i =>
      CleanupOp.closeShm i :: (if o.closeOk i then [CleanupOp.unlinkShm i] else [])) ++
    [CleanupOp.removeLockFile]

/-- The `try/except KeyboardInterrupt/except Exception/finally` of
`start_service_loop` (lines 118-139): whichever way the loop ends, the
`finally` block runs `release_resources`. -/
def service_shutdown (cause : ExitCause) (n : Nat) (o : CleanupOracle) : List CleanupOp :=
  match cause with
  | ExitCause.graceExceeded => release_resources n o
  | ExitCause.interrupted => release_resources n o
  | ExitCause.faulted => release_resources n o

/-- A cleanup oracle under which every shared-memory `close()` raises. -/
def oBadClose : CleanupOracle :=
  ⟨fun _ => true, fun _ => false, fun _ => true, RemoveOutcome.ok⟩

/-! ## Lock-file protocol (`is_service_already_running` lines 63-72,
`create_lock_file` lines 74-80) and the `/lock` endpoint (lines 197-202)

The lock file's observable state is: absent, present but unreadable (the
`open`/`read` raises), or present with some text content.  `create_lock_file`
writes `str(os.getpid())`; `is_service_already_running` reads the text back,
parses it with `int(...)` and asks `psutil.pid_exists`.  Python's `str` on a
nonnegative int and `int` on a string are modelled below as `pyStrNat` and
`pyParseInt` (decimal digits with an optional leading minus sign; the
whitespace tolerance of `int(...)` is not needed by any claim). -/

/-- The decimal digit characters used by `str` on a nonnegative int. -/
def digitChar (d : Nat) : Char :=
  match d with
  | 0 => '0'
  | 1 => '1'
  | 2 => '2'
  | 3 => '3'
  | 4 => '4'
  | 5 => '5'
  | 6 => '6'
  | 7 => '7'
  | 8 => '8'
  | 9 => '9'
  | _ => '*'

/-- Python `str` on a nonnegative int: its decimal digits, most significant
first. -/
def pyStrNat (n : Nat) : String :=
  if n = 0 then "0" else String.mk (((Nat.digits 10 n).map digitChar).reverse)

/-- The value of a most-significant-first digit-character list. -/
def digitsVal (cs : List Char) : Nat :=
  cs.foldl (fun a c => a * 10 + (c.toNat - 48)) 0

/-- Python `int` on a string of decimal digits: fails on the empty string and
on any non-digit character. -/
def pyParseDigits (cs : List Char) : Option Nat :=
  if cs ≠ [] ∧ cs.all Char.isDigit then some (digitsVal cs) else none

/-- Python `int` applied to a character list. -/
def pyParseIntList (cs : List Char) : Option Int :=
  match cs with
  | [] => none
  | c :: rest =>
    if c = '-' then (pyParseDigits rest).map (fun n => -(n : Int))
    else (pyParseDigits (c :: rest)).map (fun n => (n : Int))

/-- Python `int` on a string, with an optional leading minus sign; every
malformed string yields `none` (the `ValueError` branch). -/
def pyParseInt (s : String) : Option Int :=
  pyParseIntList s.data

/-- Observable state of the lock file for the reading code. -/
inductive LockFileState where
  | absent
  | unreadable
  | content (s : String)
deriving DecidableEq

/-- What `is_service_already_running` reports: its boolean return value and
whether the `except` branch logged a warning.  The function is total: no
exception reaches the caller. -/
structure LockCheckResult where
  result : Bool
  warnedLog : Bool
deriving DecidableEq, Repr

/-- `is_service_already_running` (lines 63-72): absent file → `False`;
read failure or parse failure → warning logged, `False`; parsed pid →
`psutil.pid_exists(pid)`. -/
def is_service_already_running (st : LockFileState) (pidExists : Int → Bool) :
    LockCheckResult :=
  match st with
  | LockFileState.absent => ⟨false, false⟩
  | LockFileState.unreadable => ⟨false, true⟩
  | LockFileState.content s =>
    match pyParseInt s with
    | none => ⟨false, true⟩
    | some pid => ⟨pidExists pid, false⟩

/-- `create_lock_file` (lines 74-80): writes `str(os.getpid())`, overwriting
the file; the resulting lock-file state carries that text. -/
def create_lock_file (pid : Nat) : LockFileState :=
  LockFileState.content (pyStrNat pid)

/-- The `/lock` endpoint (lines 197-202): `lock_exists` is the existence
check, `lock_pid` is the file's raw text when it exists and `None` otherwise;
no process-liveness check is involved. -/
def lockEndpoint (file : Option String) : Bool × Option String :=
  (file.isSome, if file.isSome then file else none)

/-! ## Frame capture and copy (`capture_camera_frames`, lines 99-112)

A frame is a numpy `uint8` array; its shape is a tuple of extents, embedded
as a `List Nat` (color frames are `(H, W, c)`, grayscale frames are
`(H, W)`).  Line 107 compares the frame's shape with the configured
`(height, width, channels)` tuple; line 108 calls
`cv2.resize(frame, (w, h))`, which rescales the two spatial dimensions and
keeps a channel count of 2 or more, but returns a *2-dimensional* `(h, w)`
array for 2-D input and for single-channel `(H, W, 1)` input (OpenCV's
Mat-to-ndarray conversion drops the trailing 1); other ranks are rejected
with an error.  Line 110 assigns the resulting array into the region's
`(height, width, channels)` view, which succeeds exactly when numpy can
broadcast the source shape onto the destination shape (aligning extents from
the right, the source may not have higher rank, and each aligned source
extent must equal the destination extent or be 1).  A failing resize or
assignment raises and is absorbed by the per-camera `except` (line 111),
leaving the region unwritten that tick. -/

/-- `cv2.resize(frame, (w, h))` as a shape transformation: 2-D input maps to
`[h, w]`; 3-D input keeps its channel count when it is at least 2 and comes
back 2-D when it is 1; any other rank raises (`none`). -/
def cvResize (h w : Nat) (s : List Nat) : Option (List Nat) :=
  match s with
  | [_, _] => some [h, w]
  | [_, _, c] => if c = 1 then some [h, w] else some [h, w, c]
  | _ => none

/-- numpy's broadcast rule for one dimension of `dest[:] = src`: the source
extent must equal the destination extent or be `1`. -/
def bdimOk (d s : Nat) : Bool :=
  decide (s = d) || decide (s = 1)

/-- The broadcast check over right-aligned (reversed) shape lists: a source
exhausted early is padded with 1-extents, a source of higher rank than the
destination fails. -/
def broadcastRevOk : List Nat → List Nat → Bool
  | _, [] => true
  | [], _ :: _ => false
  | d :: ds, s :: ss => bdimOk d s && broadcastRevOk ds ss

/-- Whether the assignment `dest[:] = src` succeeds under numpy
broadcasting. -/
def broadcastOk (dest src : List Nat) : Bool :=
  broadcastRevOk dest.reverse src.reverse

/-- The per-camera body of `capture_camera_frames` for a successfully read
frame (lines 107-112), against the configured shape `(eh, ew, ec)`: resize
when the shape differs, then assign into the region.  `some b` means the
full region of `b` bytes was overwritten; `none` means the resize or the
assignment raised and nothing was written that tick. -/
def writeFrameBytes (eh ew ec : Nat) (frame : List Nat) : Option Nat :=
  match (if frame ≠ [eh, ew, ec] then cvResize eh ew frame else some frame) with
  | none => none
  | some f => if broadcastOk [eh, ew, ec] f then some (eh * ew * ec) else none

/-! ## Service construction (`CameraService.__init__`, lines 45-61)

The constructor iterates over the configured camera ids.  For each id it
creates a `VideoCapture` (an unopened device is only logged, line 49), then
allocates the shared-memory region; only then are both appended to the
service's lists.  Any exception in the loop — in particular a failing
region allocation — is caught once, `release_resources()` is called on
whatever the lists hold so far, and the exception is re-raised. -/

/-- The constructor's accumulating state: the camera ids appended to
`video_captures`, those appended to `shared_memory_blocks` (the
`shared_frame_arrays` list is paired with it one-to-one), and the ids whose
device failed to open (line 49's warning). -/
structure InitState where
  captures : List Nat
  shms : List Nat
  openWarnings : List Nat
deriving DecidableEq, Repr

/-- Lines 47-49: create the `VideoCapture`; a device that is not opened only
logs a warning. -/
def openStep (openOk : Nat → Bool) (cid : Nat) (st : InitState) : InitState :=
  if openOk cid then st else { st with openWarnings := st.openWarnings ++ [cid] }

/-- The constructor loop (lines 46-61) under an oracle saying which devices
open and which shared-memory allocations succeed.  `Except.error` is the
re-raised allocation failure; it carries the state on which
`release_resources` was run (line 60) and the failing camera id. -/
def initCameras (openOk shmOk : Nat → Bool) :
    List Nat → InitState → Except (InitState × Nat) InitState
  | [], st => Except.ok st
  | cid :: rest, st =>
    if shmOk cid then
      initCameras openOk shmOk rest
        { openStep openOk cid st with
          captures := (openStep openOk cid st).captures ++ [cid],
          shms := (openStep openOk cid st).shms ++ [cid] }
    else
      Except.error (openStep openOk cid st, cid)

/-- `CameraService.__init__` run from empty resource lists. -/
def cameraServiceInit (openOk shmOk : Nat → Bool) (ids : List Nat) :
    Except (InitState × Nat) InitState :=
  initCameras openOk shmOk ids ⟨[], [], []⟩

/-- An oracle under which camera 0's device does not open. -/
def c6OpenOk : Nat → Bool := fun i => decide (i ≠ 0)

/-- An oracle under which camera 1's shared-memory allocation fails. -/
def c6ShmOk : Nat → Bool := fun i => decide (i ≠ 1)

/-! ## Command dispatch (`__main__`, lines 208-230)

The entry point reads `sys.argv`.  `run` calls `service.run_service_loop()`
and `launch` calls `service.launch_background()` — attribute lookups on the
`CameraService` instance, which raise `AttributeError` when the class defines
no such method.  The class's actual method names are listed below, straight
from the `def` lines of the source. -/

/-- The methods `class CameraService` defines (lines 13-175). -/
def cameraServiceMethods : List String :=
  ["is_service_already_running", "create_lock_file", "delete_lock_file",
    "is_target_process_running", "capture_camera_frames", "start_service_loop",
    "release_resources", "launch_as_background_process"]

/-- Observable outcome of the `__main__` block. -/
inductive MainOutcome where
  | attrError (missing : String)
  | loopStarted
  | launchStarted
  | apiStarted
  | unknownMode (mode : String)
  | usagePrinted
deriving DecidableEq, Repr

/-- Python attribute lookup on the service instance: invoking a method the
class does not define raises `AttributeError` instead of producing the
method's outcome. -/
def callService (meth : String) (outcome : MainOutcome) : MainOutcome :=
  if cameraServiceMethods.contains meth then outcome else MainOutcome.attrError meth

/-- The `__main__` dispatch (lines 208-230) as a function of `sys.argv[1:]`. -/
def mainEntry (argvTail : List String) : MainOutcome :=
  match argvTail with
  | [] => MainOutcome.usagePrinted
  | mode :: _ =>
    if mode = "run" then callService "run_service_loop" MainOutcome.loopStarted
    else if mode = "launch" then callService "launch_background" MainOutcome.launchStarted
    else if mode = "api" then MainOutcome.apiStarted
    else MainOutcome.unknownMode mode

end FlaskCamera

namespace FlaskCamera

/-- C1 (counter behaviour): present resets, absent adds the interval. -/
theorem wdTick_present (ci m : Int) : wdTick ci m true = 0 := rfl

/-- C1 helper: absent ticks add exactly the interval. -/
theorem wdTick_absent (ci m : Int) : wdTick ci m false = m + ci := by
  simp [wdTick]

/-- Every counter value along a trace started from a nonnegative value stays
nonnegative when the interval is nonnegative. -/
theorem wdTrace_nonneg (ci : Int) (hci : 0 ≤ ci) :
    ∀ (obs : List Bool) (m : Int), 0 ≤ m → ∀ x ∈ wdTrace ci m obs, 0 ≤ x := by
  intro obs
  induction obs with
  | nil => intro m _ x hx; simp [wdTrace] at hx
  | cons p rest ih =>
    intro m hm x hx
    have hstep : 0 ≤ wdTick ci m p := by
      cases p
      · have h1 : wdTick ci m false = m + ci := by simp [wdTick]
        omega
      · simp [wdTick]
    simp only [wdTrace, List.mem_cons] at hx
    rcases hx with h | h
    · omega
    · exact ih (wdTick ci m p) hstep x h

/-- C1: the missing-time counter resets to `0` on a present tick, grows by
exactly `checkInterval` on an absent tick, starts at `0`, and (for a
nonnegative interval) every value reached along the observation trace is
nonnegative. -/
theorem claim_c1_missing_time (ci m x : Int) (obs : List Bool)
    (hci : 0 ≤ ci) (hx : x ∈ wdTrace ci 0 obs) :
    wdTick ci m true = 0 ∧ wdTick ci m false = m + ci ∧ 0 ≤ x :=
  ⟨wdTick_present ci m, wdTick_absent ci m,
    wdTrace_nonneg ci hci obs 0 le_rfl x hx⟩

/-- Witness for C1 at `checkInterval = 2` and the observation sequence
absent, absent, present: the trace is `[2, 4, 0]` and contains `4`. -/
theorem claim_c1_missing_time_witness :
    wdTick 2 5 true = 0 ∧ wdTick 2 5 false = 5 + 2 ∧ 0 ≤ (4 : Int) :=
  claim_c1_missing_time 2 5 4 [false, false, true] (by decide) (by decide)

/-- On an absent tick the code's tick and the spec's tick agree exactly. -/
theorem specLoopTick_absent (ci gl m : Int) :
    specLoopTick ci gl m false = loopTick ci gl m false := rfl

/-- On a present tick with a positive grace limit, both ticks continue with a
reset counter and a completed capture. -/
theorem specLoopTick_present (ci gl m : Int) (hgl : 0 < gl) :
    specLoopTick ci gl m true = ⟨0, false, true⟩ := by
  have h0 : ¬ (gl ≤ (0 : Int)) := by omega
  simp [specLoopTick, wdTick, decide_eq_false h0]

/-- With a positive grace limit, the code's loop run (grace condition checked
only on absent ticks) coincides with the spec's loop run (condition checked on
every tick), from any starting counter value. -/
theorem loopRun_eq_specLoopRun (ci gl : Int) (hgl : 0 < gl) :
    ∀ (obs : List Bool) (m : Int), loopRun ci gl m obs = specLoopRun ci gl m obs := by
  intro obs
  induction obs with
  | nil => intro m; rfl
  | cons p rest ih =>
    intro m
    cases p
    · simp only [loopRun, specLoopRun, specLoopTick_absent]
      cases hst : (loopTick ci gl m false).stopped
      · simp [hst, ih]
      · simp [hst]
    · have hcode : loopTick ci gl m true = ⟨0, false, true⟩ := rfl
      simp only [loopRun, specLoopRun, hcode, specLoopTick_present ci gl m hgl]
      simp [ih 0]

/-- Every tick result produced by the code's loop has its capture flag equal
to the negation of its stop flag: a stopping tick skips capture and sleep. -/
theorem loopRun_stopped_no_capture (ci gl : Int) :
    ∀ (obs : List Bool) (m : Int),
      ∀ r ∈ loopRun ci gl m obs, r.stopped = true → r.captureRan = false := by
  intro obs
  have htick : ∀ (m : Int) (p : Bool),
      (loopTick ci gl m p).stopped = true → (loopTick ci gl m p).captureRan = false := by
    intro m p
    cases p <;> simp [loopTick]
  induction obs with
  | nil => intro m r hr; simp [loopRun] at hr
  | cons p rest ih =>
    intro m r hr hstop
    simp only [loopRun] at hr
    by_cases hst : (loopTick ci gl m p).stopped = true
    · rw [if_pos hst] at hr
      rcases List.mem_singleton.mp hr with h
      subst h
      exact htick m p hstop
    · rw [if_neg hst] at hr
      rcases List.mem_cons.mp hr with h | h
      · subst h
        exact htick m p hstop
      · exact ih (loopTick ci gl m p).missing r h hstop

/-- C2 counterexample: with `checkInterval = 2`, `graceLimit = 0` and a single
present observation, the condition `missingTime >= graceLimit` holds at the
tick (the counter is `0` and `0 >= 0`), so the claim's loop exits; the code's
loop does not, because the grace condition is evaluated only on absent ticks.
The spec-faithful run stops while the code's run does not. -/
theorem claim_c2_counterexample :
    ((loopRun 2 0 0 [true]).any (fun r => r.stopped)) = false ∧
    ((specLoopRun 2 0 0 [true]).any (fun r => r.stopped)) = true := by
  constructor <;> rfl

/-- C2 amended: the grace condition is evaluated only on absent ticks, right
after the increment; for every positive `graceLimit` this is equivalent to
checking it once on every tick, so the loop exits exactly when
`missingTime >= graceLimit` first holds, and on the exit tick the frame
capture and sleep are skipped. -/
theorem claim_c2_grace_exit (ci gl : Int) (obs : List Bool) (hgl : 0 < gl) :
    loopRun ci gl 0 obs = specLoopRun ci gl 0 obs ∧
    ∀ r ∈ loopRun ci gl 0 obs, r.stopped = true → r.captureRan = false :=
  ⟨loopRun_eq_specLoopRun ci gl hgl obs 0, loopRun_stopped_no_capture ci gl obs 0⟩

/-- Witness for C2 at the spec's scenario `checkInterval = 2`,
`graceLimit = 10`, five consecutive absent observations. -/
theorem claim_c2_grace_exit_witness :
    loopRun 2 10 0 [false, false, false, false, false] =
      specLoopRun 2 10 0 [false, false, false, false, false] :=
  (claim_c2_grace_exit 2 10 [false, false, false, false, false] (by decide)).1

/-- The spec's first scenario, evaluated on the embedded loop: five absent
ticks stop the loop on the tick where the counter reaches `10`, the stopping
tick skips capture; with a present tick at position 3, the counter resets and
the run continues past the original horizon. -/
theorem loop_scenario_check :
    loopRun 2 10 0 [false, false, false, false, false] =
      [⟨2, false, true⟩, ⟨4, false, true⟩, ⟨6, false, true⟩, ⟨8, false, true⟩,
        ⟨10, true, false⟩] ∧
    loopRun 2 10 0 [false, false, true, false, false] =
      [⟨2, false, true⟩, ⟨4, false, true⟩, ⟨0, false, true⟩, ⟨2, false, true⟩,
        ⟨4, false, true⟩] := by
  constructor <;> rfl

/-- Every capture's `release` is attempted, whatever fails. -/
theorem mem_release_resources_release (n : Nat) (o : CleanupOracle) (i : Nat) (hi : i < n) :
    CleanupOp.releaseCapture i ∈ release_resources n o := by
  simp only [release_resources, List.mem_append]
  exact Or.inl (Or.inl (List.mem_map.mpr ⟨i, List.mem_range.mpr hi, rfl⟩))

/-- Every block's `close` is attempted, whatever fails. -/
theorem mem_release_resources_close (n : Nat) (o : CleanupOracle) (i : Nat) (hi : i < n) :
    CleanupOp.closeShm i ∈ release_resources n o := by
  simp only [release_resources, List.mem_append]
  exact Or.inl (Or.inr (List.mem_flatMap.mpr ⟨i, List.mem_range.mpr hi, List.mem_cons_self _ _⟩))

/-- A block's `unlink` is attempted exactly when its `close` did not raise. -/
theorem mem_release_resources_unlink (n : Nat) (o : CleanupOracle) (i : Nat) (hi : i < n) :
    CleanupOp.unlinkShm i ∈ release_resources n o ↔ o.closeOk i = true := by
  simp only [release_resources, List.mem_append, List.mem_map, List.mem_flatMap,
    List.mem_range, List.mem_singleton]
  constructor
  · rintro ((⟨a, _, ha⟩ | ⟨a, _, ha⟩) | ha)
    · exact absurd ha (by simp)
    · rcases List.mem_cons.mp ha with h | h
      · exact absurd h (by simp)
      · by_cases hc : o.closeOk a = true
        · rw [if_pos hc] at h
          rcases List.mem_singleton.mp h with h
          cases h
          exact hc
        · rw [if_neg hc] at h
          simp at h
    · exact absurd ha (by simp)
  · intro hc
    refine Or.inl (Or.inr ⟨i, hi, ?_⟩)
    rw [if_pos hc]
    exact List.mem_cons.mpr (Or.inr (List.mem_singleton.mpr rfl))

/-- The lock removal is always attempted. -/
theorem mem_release_resources_remove (n : Nat) (o : CleanupOracle) :
    CleanupOp.removeLockFile ∈ release_resources n o := by
  simp [release_resources]

/-- C3 counterexample: when a block's `close()` raises, that block's
`unlink()` is *not* attempted (it sits in the same `try`), although close,
capture release and lock removal all still are; so "every shared-memory
region is closed and unlinked" with "a failure in one cleanup step does not
prevent the remaining steps" fails as stated. -/
theorem claim_c3_counterexample :
    CleanupOp.unlinkShm 0 ∉ service_shutdown ExitCause.graceExceeded 1 oBadClose ∧
    CleanupOp.closeShm 0 ∈ service_shutdown ExitCause.graceExceeded 1 oBadClose ∧
    CleanupOp.releaseCapture 0 ∈ service_shutdown ExitCause.graceExceeded 1 oBadClose ∧
    CleanupOp.removeLockFile ∈ service_shutdown ExitCause.graceExceeded 1 oBadClose := by
  refine ⟨?_, ?_, ?_, ?_⟩ <;> decide

/-- C3 amended: on every termination path (grace exceeded, interrupt, fault)
the same cleanup runs: every capture's release and every region's close are
attempted, the lock removal is attempted, and a region's unlink is attempted
exactly when that region's close succeeded; failures of any operations
(modelled by an arbitrary oracle) never prevent the cleanup of the other
resources. -/
theorem claim_c3_cleanup (cause : ExitCause) (n : Nat) (o : CleanupOracle)
    (i : Nat) (hi : i < n) :
    service_shutdown cause n o = release_resources n o ∧
    CleanupOp.releaseCapture i ∈ service_shutdown cause n o ∧
    CleanupOp.closeShm i ∈ service_shutdown cause n o ∧
    (CleanupOp.unlinkShm i ∈ service_shutdown cause n o ↔ o.closeOk i = true) ∧
    CleanupOp.removeLockFile ∈ service_shutdown cause n o := by
  have hsh : service_shutdown cause n o = release_resources n o := by
    cases cause <;> rfl
  rw [hsh]
  exact ⟨rfl, mem_release_resources_release n o i hi, mem_release_resources_close n o i hi,
    mem_release_resources_unlink n o i hi, mem_release_resources_remove n o⟩

/-- Witness for C3 on the fault path with two cameras and all closes
failing. -/
theorem claim_c3_cleanup_witness :
    service_shutdown ExitCause.faulted 2 oBadClose = release_resources 2 oBadClose ∧
    CleanupOp.releaseCapture 1 ∈ service_shutdown ExitCause.faulted 2 oBadClose ∧
    CleanupOp.closeShm 1 ∈ service_shutdown ExitCause.faulted 2 oBadClose ∧
    (CleanupOp.unlinkShm 1 ∈ service_shutdown ExitCause.faulted 2 oBadClose ↔
      oBadClose.closeOk 1 = true) ∧
    CleanupOp.removeLockFile ∈ service_shutdown ExitCause.faulted 2 oBadClose :=
  claim_c3_cleanup ExitCause.faulted 2 oBadClose 1 (by decide)

/-- C8: lock release never raises, a missing file is a silent no-op, and a
warning is logged exactly on any other removal failure. -/
theorem claim_c8_delete_lock (r : RemoveOutcome) :
    (delete_lock_file r).raised = false ∧
    delete_lock_file RemoveOutcome.fileNotFound = ⟨false, false⟩ ∧
    ((delete_lock_file r).warnedLog = true ↔ r = RemoveOutcome.otherError) := by
  cases r <;> exact ⟨rfl, rfl, by decide⟩

/-- Decimal digits map to digit characters. -/
theorem digitChar_isDigit (d : Nat) (hd : d < 10) : (digitChar d).isDigit = true := by
  interval_cases d <;> decide

/-- The character of a decimal digit decodes back to the digit. -/
theorem digitChar_toNat (d : Nat) (hd : d < 10) : (digitChar d).toNat - 48 = d := by
  interval_cases d <;> decide

/-- Folding one more least-significant character. -/
theorem digitsVal_append (cs : List Char) (c : Char) :
    digitsVal (cs ++ [c]) = digitsVal cs * 10 + (c.toNat - 48) := by
  simp [digitsVal, List.foldl_append]

/-- The big-endian character rendering of a little-endian digit list folds
back to the number the digits denote. -/
theorem digitsVal_ofDigits (L : List Nat) (hL : ∀ d ∈ L, d < 10) :
    digitsVal ((L.map digitChar).reverse) = Nat.ofDigits 10 L := by
  induction L with
  | nil => simp [digitsVal, Nat.ofDigits]
  | cons d t ih =>
    have hd : d < 10 := hL d (List.mem_cons_self d t)
    have ht : ∀ x ∈ t, x < 10 := fun x hx => hL x (List.mem_cons_of_mem d hx)
    have hrev : ((d :: t).map digitChar).reverse = (t.map digitChar).reverse ++ [digitChar d] := by
      simp
    rw [hrev, digitsVal_append, ih ht, digitChar_toNat d hd, Nat.ofDigits_cons]
    ring

/-- The decimal rendering of a nonnegative int is never empty. -/
theorem pyStrNat_data_ne_nil (n : Nat) : (pyStrNat n).data ≠ [] := by
  by_cases h : n = 0
  · subst h; decide
  · simp only [pyStrNat, if_neg h]
    show ((Nat.digits 10 n).map digitChar).reverse ≠ []
    simp [Nat.digits_ne_nil_iff_ne_zero.mpr h]

/-- Every character of the decimal rendering is a digit character. -/
theorem pyStrNat_data_digits (n : Nat) :
    ∀ c ∈ (pyStrNat n).data, c.isDigit = true := by
  by_cases h : n = 0
  · subst h
    intro c hc
    have hc0 : c ∈ ['0'] := hc
    rcases List.mem_singleton.mp hc0 with rfl
    decide
  · simp only [pyStrNat, if_neg h]
    intro c hc
    have hc2 : c ∈ ((Nat.digits 10 n).map digitChar).reverse := hc
    rcases List.mem_map.mp (List.mem_reverse.mp hc2) with ⟨d, hd, rfl⟩
    exact digitChar_isDigit d (Nat.digits_lt_base (by norm_num) hd)

/-- Parsing the digit characters written by `pyStrNat` recovers the number. -/
theorem pyParseDigits_pyStrNat (n : Nat) :
    pyParseDigits (pyStrNat n).data = some n := by
  by_cases h : n = 0
  · subst h; decide
  · have hne : (pyStrNat n).data ≠ [] := pyStrNat_data_ne_nil n
    have hall : (pyStrNat n).data.all Char.isDigit = true :=
      List.all_eq_true.mpr fun c hc => pyStrNat_data_digits n c hc
    rw [pyParseDigits, if_pos ⟨hne, hall⟩]
    have hdata : (pyStrNat n).data = ((Nat.digits 10 n).map digitChar).reverse := by
      simp only [pyStrNat, if_neg h]
    rw [hdata, digitsVal_ofDigits (Nat.digits 10 n)
      (fun d hd => Nat.digits_lt_base (by norm_num) hd), Nat.ofDigits_digits]

/-- `int(str(pid))` is the identity on nonnegative pids. -/
theorem pyParseInt_pyStrNat (n : Nat) : pyParseInt (pyStrNat n) = some (n : Int) := by
  rcases hd : (pyStrNat n).data with _ | ⟨c, rest⟩
  · exact absurd hd (pyStrNat_data_ne_nil n)
  · have hcdig : c.isDigit = true :=
      pyStrNat_data_digits n c (by rw [hd]; exact List.mem_cons_self c rest)
    have hcm : ¬ (c = '-') := by
      intro hc; subst hc; exact absurd hcdig (by decide)
    rw [pyParseInt, hd, pyParseIntList, if_neg hcm, ← hd, pyParseDigits_pyStrNat n]
    rfl

/-- C4: the lock check returns false for an absent file, an unreadable file,
unparseable content, and a dead pid; it returns true exactly when the parsed
pid names a live process; read and parse failures only log a warning, and
nothing propagates (the embedded check is a total function). -/
theorem claim_c4_lock_check (st : LockFileState) (pidExists : Int → Bool) :
    is_service_already_running LockFileState.absent pidExists = ⟨false, false⟩ ∧
    is_service_already_running LockFileState.unreadable pidExists = ⟨false, true⟩ ∧
    ((is_service_already_running st pidExists).result = true ↔
      ∃ s pid, st = LockFileState.content s ∧ pyParseInt s = some pid ∧
        pidExists pid = true) ∧
    ((is_service_already_running st pidExists).warnedLog = true ↔
      st = LockFileState.unreadable ∨
        ∃ s, st = LockFileState.content s ∧ pyParseInt s = none) := by
  refine ⟨rfl, rfl, ?_, ?_⟩
  · cases st with
    | absent =>
      constructor
      · intro h; cases h
      · rintro ⟨s, pid, heq, _, _⟩; cases heq
    | unreadable =>
      constructor
      · intro h; cases h
      · rintro ⟨s, pid, heq, _, _⟩; cases heq
    | content s =>
      cases hp : pyParseInt s with
      | none =>
        have hres : is_service_already_running (LockFileState.content s) pidExists =
            ⟨false, true⟩ := by
          simp [is_service_already_running, hp]
        rw [hres]
        constructor
        · intro h; cases h
        · rintro ⟨s2, pid2, heq, hp2, _⟩
          cases heq
          rw [hp] at hp2
          cases hp2
      | some pid =>
        have hres : is_service_already_running (LockFileState.content s) pidExists =
            ⟨pidExists pid, false⟩ := by
          simp [is_service_already_running, hp]
        rw [hres]
        constructor
        · intro h; exact ⟨s, pid, rfl, hp, h⟩
        · rintro ⟨s2, pid2, heq, hp2, halive⟩
          cases heq
          rw [hp] at hp2
          cases hp2
          exact halive
  · cases st with
    | absent =>
      constructor
      · intro h; cases h
      · rintro (h | ⟨s, heq, _⟩)
        · cases h
        · cases heq
    | unreadable =>
      constructor
      · intro _; exact Or.inl rfl
      · intro _; rfl
    | content s =>
      cases hp : pyParseInt s with
      | none =>
        have hres : is_service_already_running (LockFileState.content s) pidExists =
            ⟨false, true⟩ := by
          simp [is_service_already_running, hp]
        rw [hres]
        constructor
        · intro _; exact Or.inr ⟨s, rfl, hp⟩
        · intro _; rfl
      | some pid =>
        have hres : is_service_already_running (LockFileState.content s) pidExists =
            ⟨pidExists pid, false⟩ := by
          simp [is_service_already_running, hp]
        rw [hres]
        constructor
        · intro h; cases h
        · rintro (h | ⟨s2, heq, hp2⟩)
          · cases h
          · cases heq; rw [hp] at hp2; cases hp2

/-- C9: the `/lock` endpoint is a raw passthrough of the lock file: a missing
file yields `(false, none)` and an existing file yields `true` with the raw
stored text, with no liveness validation involved. -/
theorem claim_c9_lock_endpoint (s : String) :
    lockEndpoint none = (false, none) ∧ lockEndpoint (some s) = (true, some s) :=
  ⟨rfl, rfl⟩

/-- C10: after a successful `create_lock_file`, an immediate
`is_service_already_running` with the writer still alive returns true — the
written decimal pid parses back to the same pid. -/
theorem claim_c10_roundtrip (pid : Nat) (alive : Int → Bool)
    (h : alive (pid : Int) = true) :
    (is_service_already_running (create_lock_file pid) alive).result = true := by
  simp only [create_lock_file, is_service_already_running, pyParseInt_pyStrNat pid]
  exact h

/-- Witness for C10 at pid 4242 with a process table in which exactly pid
4242 is alive. -/
theorem claim_c10_roundtrip_witness :
    (is_service_already_running (create_lock_file 4242)
      (fun i => i == 4242)).result = true :=
  claim_c10_roundtrip 4242 (fun i => i == 4242) (by decide)

/-- The configured shape broadcasts onto itself. -/
theorem broadcastOk_self (a b d : Nat) : broadcastOk [a, b, d] [a, b, d] = true := by
  simp [broadcastOk, broadcastRevOk, bdimOk]

/-- C5 counterexample: a frame with a differing channel count (a 4-channel
`480x640` frame against the configured `480x640x3`) is *not* brought to the
expected shape — `cv2.resize` keeps its 4 channels — and the assignment into
the region raises, so nothing is written that tick instead of
`height*width*channels` bytes. -/
theorem claim_c5_counterexample :
    writeFrameBytes 480 640 3 [480, 640, 4] = none ∧
    cvResize 480 640 [480, 640, 4] ≠ some [480, 640, 3] := by
  exact ⟨rfl, by decide⟩

/-- C5 amended: the resize normalizes only height and width and does not
adjust the channel count (a single-channel 3-D array even comes back 2-D).
For a 3-D frame whose channel count equals the configured one — that count
not being 1 — exactly `height*width*channels` bytes are written regardless
of the source's spatial dimensions; a 3-D frame with any other channel
count (itself not 1) makes the assignment raise and the tick writes
nothing. -/
theorem claim_c5_resize_write (eh ew ec fh fw c : Nat) (hec : ec ≠ 1) (hc1 : c ≠ 1) :
    (c = ec → writeFrameBytes eh ew ec [fh, fw, c] = some (eh * ew * ec)) ∧
    (c ≠ ec → writeFrameBytes eh ew ec [fh, fw, c] = none) := by
  constructor
  · intro hce
    subst hce
    by_cases heq : ([fh, fw, c] : List Nat) = [eh, ew, c]
    · obtain ⟨h1, h2⟩ : fh = eh ∧ fw = ew := by simpa using heq
      subst h1
      subst h2
      simp [writeFrameBytes, broadcastOk_self]
    · simp [writeFrameBytes, heq, cvResize, hc1, broadcastOk_self]
  · intro hcne
    have heq : ([fh, fw, c] : List Nat) ≠ [eh, ew, ec] := by
      intro h
      have h3 : fh = eh ∧ fw = ew ∧ c = ec := by simpa using h
      exact hcne h3.2.2
    simp [writeFrameBytes, heq, cvResize, hc1, broadcastOk, broadcastRevOk,
      bdimOk, hcne]

/-- Witness for C5: a `100x200x3` frame against configured `480x640x3` is
resized and the full `480*640*3` bytes are written. -/
theorem claim_c5_resize_write_witness :
    writeFrameBytes 480 640 3 [100, 200, 3] = some (480 * 640 * 3) :=
  (claim_c5_resize_write 480 640 3 100 200 3 (by decide) (by decide)).1 rfl

/-- `openStep` never touches the capture list. -/
theorem openStep_captures (openOk : Nat → Bool) (cid : Nat) (st : InitState) :
    (openStep openOk cid st).captures = st.captures := by
  by_cases h : openOk cid <;> simp [openStep, h]

/-- `openStep` never touches the region list. -/
theorem openStep_shms (openOk : Nat → Bool) (cid : Nat) (st : InitState) :
    (openStep openOk cid st).shms = st.shms := by
  by_cases h : openOk cid <;> simp [openStep, h]

/-- `openStep` appends the id to the warning list exactly when the device
fails to open. -/
theorem openStep_openWarnings (openOk : Nat → Bool) (cid : Nat) (st : InitState) :
    (openStep openOk cid st).openWarnings =
      st.openWarnings ++ (if openOk cid then [] else [cid]) := by
  by_cases h : openOk cid <;> simp [openStep, h]

/-- When every allocation succeeds, the constructor loop appends every
camera id — opened or not — to both resource lists, and records a warning for
exactly the unopened devices. -/
theorem initCameras_all_ok (openOk shmOk : Nat → Bool) (ids : List Nat)
    (h : ∀ i ∈ ids, shmOk i = true) :
    ∀ st : InitState, initCameras openOk shmOk ids st =
      Except.ok ⟨st.captures ++ ids, st.shms ++ ids,
        st.openWarnings ++ ids.filter (fun i => ! openOk i)⟩ := by
  induction ids with
  | nil => intro st; cases st; simp [initCameras]
  | cons cid rest ih =>
    intro st
    have hs : shmOk cid = true := h cid (List.mem_cons_self cid rest)
    have hrest : ∀ i ∈ rest, shmOk i = true :=
      fun i hi => h i (List.mem_cons_of_mem cid hi)
    simp only [initCameras, if_pos hs]
    rw [ih hrest]
    by_cases ho : openOk cid = true <;>
      simp [openStep_captures, openStep_shms, openStep_openWarnings,
        List.filter_cons, ho, List.append_assoc]

/-- The constructor loop errors only on a failed allocation, and the state it
releases holds captures and regions for the same camera ids. -/
theorem initCameras_error_inv (openOk shmOk : Nat → Bool) :
    ∀ (ids : List Nat) (st st2 : InitState) (cid : Nat),
      st.captures = st.shms →
      initCameras openOk shmOk ids st = Except.error (st2, cid) →
      shmOk cid = false ∧ st2.captures = st2.shms := by
  intro ids
  induction ids with
  | nil =>
    intro st st2 cid _ hrun
    simp [initCameras] at hrun
  | cons cid2 rest ih =>
    intro st st2 cid hinv hrun
    simp only [initCameras] at hrun
    by_cases hs : shmOk cid2 = true
    · rw [if_pos hs] at hrun
      refine ih _ _ _ ?_ hrun
      simp [openStep_captures, openStep_shms, hinv]
    · rw [if_neg hs] at hrun
      injection hrun with hpair
      have h1 : openStep openOk cid2 st = st2 := congrArg Prod.fst hpair
      have h2 : cid2 = cid := congrArg Prod.snd hpair
      subst h2
      constructor
      · exact Bool.not_eq_true (shmOk cid2) ▸ eq_false_of_ne_true hs
      · rw [← h1, openStep_captures, openStep_shms]
        exact hinv

/-- C6 amended: a camera device that fails to open is only logged — its
capture object and shared region are still created and appended, so setup
proceeds and the slot *is* populated; a shared-memory allocation failure, on
the other hand, aborts the whole construction: whatever the resource lists
hold at that point (captures and regions for the same ids) is released and
the failure is re-raised, so the remaining cameras are never set up. -/
theorem claim_c6_init (openOk shmOk : Nat → Bool) (ids : List Nat) :
    ((∀ i ∈ ids, shmOk i = true) →
      cameraServiceInit openOk shmOk ids =
        Except.ok ⟨ids, ids, ids.filter (fun i => ! openOk i)⟩) ∧
    (∀ (st : InitState) (cid : Nat),
      cameraServiceInit openOk shmOk ids = Except.error (st, cid) →
      shmOk cid = false ∧ st.captures = st.shms) := by
  constructor
  · intro h
    have := initCameras_all_ok openOk shmOk ids h ⟨[], [], []⟩
    simpa [cameraServiceInit] using this
  · intro st cid hrun
    exact initCameras_error_inv openOk shmOk ids ⟨[], [], []⟩ st cid rfl hrun

/-- Witness for C6: with camera 0's device failing to open and all
allocations succeeding, both cameras are fully set up and camera 0 is
logged. -/
theorem claim_c6_init_witness :
    cameraServiceInit c6OpenOk (fun _ => true) [0, 1] =
      Except.ok ⟨[0, 1], [0, 1], [0]⟩ :=
  (claim_c6_init c6OpenOk (fun _ => true) [0, 1]).1 (by decide)

/-- C6 counterexample: with camera 0's device failing to open and camera 1's
allocation failing, construction aborts with camera 1 unconfigured (the claim
says it proceeds), and camera 0 — whose device failed to open — *is*
populated in both resource lists (the claim says its slot stays
unpopulated). -/
theorem claim_c6_counterexample :
    cameraServiceInit c6OpenOk c6ShmOk [0, 1] = Except.error (⟨[0], [0], [0]⟩, 1) ∧
    (∀ ok : InitState, cameraServiceInit c6OpenOk c6ShmOk [0, 1] ≠ Except.ok ok) ∧
    0 ∈ (⟨[0], [0], [0]⟩ : InitState).captures := by
  refine ⟨rfl, ?_, by decide⟩
  intro ok h
  rw [show cameraServiceInit c6OpenOk c6ShmOk [0, 1] =
    Except.error (⟨[0], [0], [0]⟩, 1) from rfl] at h
  cases h

/-- C7: evaluating the entry point.  The verbs `run` and `launch` call
methods the class does not define (`run_service_loop`,
`launch_background` — the class defines `start_service_loop` and
`launch_as_background_process`), so both raise `AttributeError`; `api`
starts the HTTP server; an unknown verb reports it; no argument prints the
usage text. -/
theorem claim_c7_dispatch :
    mainEntry ["run"] = MainOutcome.attrError "run_service_loop" ∧
    mainEntry ["launch"] = MainOutcome.attrError "launch_background" ∧
    mainEntry ["api"] = MainOutcome.apiStarted ∧
    mainEntry ["frobnicate"] = MainOutcome.unknownMode "frobnicate" ∧
    mainEntry [] = MainOutcome.usagePrinted := by
  refine ⟨?_, ?_, ?_, ?_, ?_⟩ <;> rfl
